import Mathlib

/-!
Shallow embedding of the typir lazy type-resolution and relation-validation
core: the `TypeReference` state machine with `resolveTypeSelector`
(type-reference.ts) and the `DefaultValidationConstraints` /
`DefaultValidationCollector` services (validation.ts).

Modelling conventions:
* JS object identity of `Type` handles is modelled by a unique `uid` field,
  so structural equality of `Ty` coincides with reference identity (`===`).
* The mutable external collaborators (Type Graph, Inference Collector,
  Printer, comparison-strategy factory) are bundled in `TypirServices`; an
  operation that reads them receives the services' state at that moment as
  an argument.
* A `TypeReference` appearing as a selector is represented by the current
  value of its resolved-type slot, since both `tryToResolve` and
  `resolveTypeSelector` consult only `selector.getType()`.
* Stateful methods become functions `TypeReference → TypeReference × List Notif`,
  where `Notif` records each listener callback delivered, together with the
  value a callback would observe by calling `getType()` at delivery time.
* Reentrant listener callbacks are modelled by an effect function `Eff`
  acting on the reference's listener list (the only piece of the
  reference's state a callback can reach during a notification pass:
  `resolve`/`startResolving` are protected, and during every pass the
  reference is unsubscribed from both collaborators, so no event can
  re-enter it; `addListener`/`removeListener`/`deconstruct` touch only the
  listener list).
-/

/-- Arbitrary domain values (AST nodes, tokens, ...): opaque to the core. -/
abbrev DVal := Nat

/-- Listener identities (JS object identity of a TypeReferenceListener). -/
abbrev ListenerId := Nat

/-- A Type handle of the Type Graph: a unique identity plus its identifier
string. `uid` models JS reference identity. -/
structure Ty where
  uid : Nat
  identifier : String
deriving DecidableEq, Repr

/-- External collaborator (type-initializer.ts, not under src): a two-phase
type builder exposing an initial (possibly incomplete) and a final handle. -/
structure TypeInitializer where
  typeInitial : Ty
  typeFinal : Ty
deriving DecidableEq, Repr

/-- The type graph's registry of types: identifier-keyed entries; a fresh
entry is added at the front, and `lookupType` finds the first match. -/
abbrev TypeGraph := List (String × Ty)

/-- Consumed from the Type Graph: `getType(identifier) -> Type | absent`. -/
def lookupType : TypeGraph → String → Option Ty
  | [], _ => none
  | (k, t) :: rest, s => if k = s then some t else lookupType rest s

/-- The opaque mismatch payload produced by a Type Comparison Strategy
(a `TypirProblem` in the source). -/
structure Mismatch where
  code : Nat
deriving DecidableEq, Repr

/-- Strategy kinds accepted by `createTypeCheckStrategy`. -/
inductive TypeCheckStrategy where
  | ASSIGNABLE_TYPE
  | EQUAL_TYPE
  | SUB_TYPE
deriving DecidableEq, Repr

/-- The `TypeSelector` variants (type-selector.ts):
a concrete Type, a string identifier, a TypeInitializer, another
TypeReference (modelled by its current resolved slot), a thunk producing a
selector (modelled by the selector it returns), or an arbitrary domain
value handed to the Inference Collector. -/
inductive Selector where
  | type (t : Ty)
  | str (ident : String)
  | init (i : TypeInitializer)
  | ref (current : Option Ty)
  | fn (s : Selector)
  | dval (d : DVal)
deriving DecidableEq, Repr

/-- The service facade (`TypirServices` / `Typir`): the Type Graph contents,
the Inference Collector's `inferType` (`some` exactly when the result
passes `isType`), the Printer, and the comparison-strategy factory
`createTypeCheckStrategy` applied to a strategy kind. -/
structure TypirServices where
  graph : TypeGraph
  inferType : DVal → Option Ty
  printDomainElement : DVal → Bool → String
  printType : Ty → String
  strategyLogic : TypeCheckStrategy → Ty → Ty → Option Mismatch

/-- `TypeReference.tryToResolve`: best-effort dispatch on the selector
shape; inference failure maps to `none`, never to an error. -/
def tryToResolve (sv : TypirServices) : Selector → Option Ty
  | .type t => some t
  | .str ident => lookupType sv.graph ident
  | .init i => some i.typeInitial
  | .ref current => current
  | .fn s => tryToResolve sv s
  | .dval d => sv.inferType d

/-- The two error kinds thrown by `resolveTypeSelector`, carrying the
`Error` message built in the source. -/
inductive ResolveError where
  | unresolvedSelector (message : String)
  | uninferableType (message : String)
deriving DecidableEq, Repr

/-- `resolveTypeSelector` (the authoritative `mustSelect`). Its TypeScript
signature declares the return type `Type`, but the `TypeReference` arm is
`return selector.getType()` whose static type is `T | undefined`; the
embedding therefore returns `Except ResolveError (Option Ty)`, where
`.ok none` is the run-time `undefined` escaping through the declared
non-optional return type. -/
def resolveTypeSelector (sv : TypirServices) : Selector → Except ResolveError (Option Ty)
  | .type t => .ok (some t)
  | .str ident =>
      match lookupType sv.graph ident with
      | some result => .ok (some result)
      | none => .error (.unresolvedSelector
          ("A type with identifier \x27" ++ ident ++
           "\x27 as TypeSelector does not exist in the type graph."))
  | .init i => .ok (some i.typeFinal)
  | .ref current => .ok current
  | .fn s => resolveTypeSelector sv s
  | .dval d =>
      match sv.inferType d with
      | some result => .ok (some result)
      | none => .error (.uninferableType
          ("For \x27" ++ sv.printDomainElement d false ++
           "\x27 as TypeSelector, no type can be inferred."))

/-- One delivered listener callback, instrumented with the value the
callback would observe by calling `getType()` on the reference at the
moment of delivery. -/
inductive Notif where
  | onResolved (l : ListenerId) (t : Ty) (observed : Option Ty)
  | onInvalidated (l : ListenerId) (previous : Option Ty) (observed : Option Ty)
deriving DecidableEq, Repr

/-- The net effect of one listener callback on the reference's listener
list (reentrant `addListener` / `removeListener` / `deconstruct` calls). -/
abbrev Eff := Notif → List ListenerId → List ListenerId

/-- The `this.listeners.slice().forEach(...)` idiom: iterate the snapshot
taken before the pass, threading the live listener list through each
callback's effect, and record the delivered notifications in order. -/
def notifyPass (eff : Eff) (mk : ListenerId → Notif) :
    List ListenerId → List ListenerId → List ListenerId × List Notif
  | [], current => (current, [])
  | l :: rest, current =>
      let n := mk l
      let afterCallback := eff n current
      let tail := notifyPass eff mk rest afterCallback
      (tail.1, n :: tail.2)

/-- The state of one `TypeReference`: the immutable selector, the
resolved-type slot, the ordered listener list, and whether it is currently
registered as a listener of the Type Graph and the Inference Collector. -/
structure TypeReference where
  selector : Selector
  resolvedType : Option Ty
  listeners : List ListenerId
  subscribedToGraph : Bool
  subscribedToInference : Bool
deriving DecidableEq, Repr

namespace TypeReference

/-- `stopResolving`: remove this reference from both collaborators'
listener registries. -/
def stopResolving (r : TypeReference) : TypeReference :=
  { r with subscribedToGraph := false, subscribedToInference := false }

/-- `getType`: the current resolved-type slot. -/
def getType (r : TypeReference) : Option Ty :=
  r.resolvedType

/-- `resolve`: if already resolved, do nothing; otherwise `tryToResolve`
the selector, and on success store the type, `stopResolving`, and notify
`onTypeReferenceResolved` over a snapshot of the listener list. -/
def resolve (eff : Eff) (sv : TypirServices) (r : TypeReference) :
    TypeReference × List Notif :=
  match r.resolvedType with
  | some _ => (r, [])
  | none =>
      match tryToResolve sv r.selector with
      | some t =>
          let pass := notifyPass eff (fun l => Notif.onResolved l t (some t))
            r.listeners r.listeners
          ({ r with
             resolvedType := some t,
             subscribedToGraph := false,
             subscribedToInference := false,
             listeners := pass.1 }, pass.2)
      | none => (r, [])

/-- `startResolving`: discard the previously resolved type, subscribe to
the Type Graph and the Inference Collector, then attempt `resolve`. -/
def startResolving (eff : Eff) (sv : TypirServices) (r : TypeReference) :
    TypeReference × List Notif :=
  resolve eff sv
    { r with
      resolvedType := none,
      subscribedToGraph := true,
      subscribedToInference := true }

/-- The constructor: store the selector and immediately `startResolving`. -/
def construct (eff : Eff) (sv : TypirServices) (selector : Selector) :
    TypeReference × List Notif :=
  startResolving eff sv
    { selector := selector,
      resolvedType := none,
      listeners := [],
      subscribedToGraph := false,
      subscribedToInference := false }

/-- `deconstruct`: `stopResolving` and clear the listener list
(`listeners.splice(0, length)`). -/
def deconstruct (r : TypeReference) : TypeReference :=
  { stopResolving r with listeners := [] }

/-- `addListener(listener, informAboutCurrentState)`: append the listener;
when asked, synchronously deliver the current state to it. -/
def addListener (r : TypeReference) (l : ListenerId)
    (informAboutCurrentState : Bool) : TypeReference × List Notif :=
  let r1 := { r with listeners := r.listeners ++ [l] }
  if informAboutCurrentState then
    match r1.resolvedType with
    | some t => (r1, [Notif.onResolved l t (some t)])
    | none => (r1, [Notif.onInvalidated l none none])
  else (r1, [])

/-- `indexOf` + `splice(index, 1)`: remove the first matching entry. -/
def removeFirst : List ListenerId → ListenerId → List ListenerId
  | [], _ => []
  | x :: xs, l => if x = l then xs else x :: removeFirst xs l

/-- `removeListener`: remove the first identity-matching entry; a no-op if
the listener is not registered. -/
def removeListener (r : TypeReference) (l : ListenerId) :
    TypeReference × List Notif :=
  ({ r with listeners := removeFirst r.listeners l }, [])

/-- `addedType` notification from the Type Graph: try to resolve. -/
def addedType (eff : Eff) (sv : TypirServices) (_t : Ty) (_key : String)
    (r : TypeReference) : TypeReference × List Notif :=
  resolve eff sv r

/-- `removedType` notification: if the removed type is identical to the
resolved one, notify `onTypeReferenceInvalidated` over a snapshot (the slot
still holding the previous type), then `startResolving` again. -/
def removedType (eff : Eff) (sv : TypirServices) (t : Ty)
    (r : TypeReference) : TypeReference × List Notif :=
  if r.resolvedType = some t then
    let pass := notifyPass eff
      (fun l => Notif.onInvalidated l r.resolvedType r.resolvedType)
      r.listeners r.listeners
    let next := startResolving eff sv { r with listeners := pass.1 }
    (next.1, pass.2 ++ next.2)
  else (r, [])

/-- `addedEdge`: only types are relevant. -/
def addedEdge (r : TypeReference) : TypeReference × List Notif :=
  (r, [])

/-- `removedEdge`: only types are relevant. -/
def removedEdge (r : TypeReference) : TypeReference × List Notif :=
  (r, [])

/-- `addedInferenceRule` notification: try to resolve. -/
def addedInferenceRule (eff : Eff) (sv : TypirServices) (r : TypeReference) :
    TypeReference × List Notif :=
  resolve eff sv r

/-- `removedInferenceRule`: removed rules cannot resolve a type. -/
def removedInferenceRule (r : TypeReference) : TypeReference × List Notif :=
  (r, [])

end TypeReference

/-- Events the collaborators can emit, carrying the collaborators' state at
the moment of emission. -/
inductive Event where
  | addedType (sv : TypirServices) (t : Ty) (key : String)
  | removedType (sv : TypirServices) (t : Ty) (key : String)
  | addedEdge
  | removedEdge
  | addedInferenceRule (sv : TypirServices)
  | removedInferenceRule

/-- Delivery: a Type Graph event reaches the reference exactly when the
reference is currently registered as a graph listener, an Inference
Collector event exactly when registered there. -/
def deliver (eff : Eff) : Event → TypeReference → TypeReference × List Notif
  | .addedType sv t key, r =>
      if r.subscribedToGraph then TypeReference.addedType eff sv t key r else (r, [])
  | .removedType sv t _key, r =>
      if r.subscribedToGraph then TypeReference.removedType eff sv t r else (r, [])
  | .addedEdge, r =>
      if r.subscribedToGraph then TypeReference.addedEdge r else (r, [])
  | .removedEdge, r =>
      if r.subscribedToGraph then TypeReference.removedEdge r else (r, [])
  | .addedInferenceRule sv, r =>
      if r.subscribedToInference then TypeReference.addedInferenceRule eff sv r else (r, [])
  | .removedInferenceRule, r =>
      if r.subscribedToInference then TypeReference.removedInferenceRule r else (r, [])

/-- Deliver a sequence of events, concatenating the notifications. -/
def deliverAll (eff : Eff) : List Event → TypeReference → TypeReference × List Notif
  | [], r => (r, [])
  | e :: es, r =>
      let step := deliver eff e r
      let rest := deliverAll eff es step.1
      (rest.1, step.2 ++ rest.2)

/-- Every method that can be invoked on a live `TypeReference` after its
construction: the six collaborator notifications and the two listener
registration calls. -/
inductive Op where
  | addedType (sv : TypirServices) (t : Ty) (key : String)
  | removedType (sv : TypirServices) (t : Ty) (key : String)
  | addedEdge
  | removedEdge
  | addedInferenceRule (sv : TypirServices)
  | removedInferenceRule
  | addListener (l : ListenerId) (informAboutCurrentState : Bool)
  | removeListener (l : ListenerId)

/-- Invoke one method on the reference. -/
def applyOp (eff : Eff) : Op → TypeReference → TypeReference × List Notif
  | .addedType sv t key, r => TypeReference.addedType eff sv t key r
  | .removedType sv t _key, r => TypeReference.removedType eff sv t r
  | .addedEdge, r => TypeReference.addedEdge r
  | .removedEdge, r => TypeReference.removedEdge r
  | .addedInferenceRule sv, r => TypeReference.addedInferenceRule eff sv r
  | .removedInferenceRule, r => TypeReference.removedInferenceRule r
  | .addListener l b, r => TypeReference.addListener r l b
  | .removeListener l, r => TypeReference.removeListener r l

/-- Invoke a sequence of methods. -/
def applyOps (eff : Eff) : List Op → TypeReference → TypeReference
  | [], r => r
  | op :: ops, r => applyOps eff ops (applyOp eff op r).1

/-- The spec's subscription invariant: subscribed to both collaborators
exactly while the resolved-type slot is absent. -/
def SubscriptionInvariant (r : TypeReference) : Prop :=
  r.subscribedToGraph = r.resolvedType.isNone ∧
  r.subscribedToInference = r.resolvedType.isNone

/-- Diagnostic severities. -/
inductive Severity where
  | error
  | warning
  | info
  | hint
deriving DecidableEq, Repr

/-- An `unknown` argument of the validation entry points: either already a
Type handle (`isType` holds) or an arbitrary domain value. -/
inductive NodeOrType where
  | node (d : DVal)
  | type (t : Ty)
deriving DecidableEq, Repr

/-- A type annotated for message construction (`annotateType`). -/
structure AnnotatedTypeAfterValidation where
  type : Ty
  userRepresentation : String
  name : String
deriving DecidableEq, Repr

/-- `Partial<ValidationMessageDetails>` as returned by a message provider;
every field may be left out. -/
structure PartialValidationMessageDetails where
  domainElement : Option NodeOrType := none
  domainProperty : Option String := none
  domainIndex : Option Nat := none
  severity : Option Severity := none
  message : Option String := none

/-- `ValidationMessageProvider`. -/
abbrev MsgProvider :=
  AnnotatedTypeAfterValidation → AnnotatedTypeAfterValidation →
    PartialValidationMessageDetails

/-- A `ValidationProblem` record (the `$problem` discriminator is implicit
in the Lean type); `subProblems` carries the comparison mismatch, if any. -/
structure ValidationProblem where
  domainElement : NodeOrType
  domainProperty : Option String
  domainIndex : Option Nat
  severity : Severity
  message : String
  subProblems : List Mismatch
deriving DecidableEq, Repr

/-- Printed name of a strategy kind (template interpolation `${strategy}`). -/
def strategyName : TypeCheckStrategy → String
  | .ASSIGNABLE_TYPE => "ASSIGNABLE_TYPE"
  | .EQUAL_TYPE => "EQUAL_TYPE"
  | .SUB_TYPE => "SUB_TYPE"

/-- The templated default diagnostic message. -/
def defaultRelationMessage (actualType expectedType : Ty)
    (strategy : TypeCheckStrategy) (negated : Bool) : String :=
  "\x27" ++ actualType.identifier ++ "\x27 is " ++
    (if negated then "" else "not ") ++ "related to \x27" ++
    expectedType.identifier ++ "\x27 regarding " ++ strategyName strategy ++ "."

namespace DefaultValidationConstraints

/-- `annotateType`: pack a resolved type with its printed representation
and identifier. -/
def annotateType (sv : TypirServices) (type : Ty) : AnnotatedTypeAfterValidation :=
  { type := type,
    userRepresentation := sv.printType type,
    name := type.identifier }

/-- The side-resolution step `isType(x) ? x : this.typir.inference.inferType(x)`
followed by the `isType` test on the outcome. -/
def asTypeOrInfer (sv : TypirServices) : NodeOrType → Option Ty
  | .type t => some t
  | .node d => sv.inferType d

/-- Build the emitted `ValidationProblem`, filling omitted provider fields
with their defaults. -/
def buildProblem (sv : TypirServices) (domainNode : NodeOrType)
    (actualType expectedType : Ty) (strategy : TypeCheckStrategy)
    (negated : Bool) (message : MsgProvider) (subProblems : List Mismatch) :
    ValidationProblem :=
  let details := message (annotateType sv actualType) (annotateType sv expectedType)
  { domainElement := details.domainElement.getD domainNode,
    domainProperty := details.domainProperty,
    domainIndex := details.domainIndex,
    severity := details.severity.getD Severity.error,
    message := details.message.getD
      (defaultRelationMessage actualType expectedType strategy negated),
    subProblems := subProblems }

/-- `ensureNodeRelatedWithType`: the single primitive behind all four
relation checks; silently skips undefined or unresolvable sides, then
emits by the four-outcome rule on (negated, comparison result). -/
def ensureNodeRelatedWithType (sv : TypirServices)
    (domainNode : Option NodeOrType) (expected : Option NodeOrType)
    (strategy : TypeCheckStrategy) (negated : Bool) (message : MsgProvider) :
    List ValidationProblem :=
  match domainNode, expected with
  | some dn, some ex =>
      match asTypeOrInfer sv dn, asTypeOrInfer sv ex with
      | some actualType, some expectedType =>
          match sv.strategyLogic strategy actualType expectedType with
          | some comparisonResult =>
              if negated then []
              else [buildProblem sv dn actualType expectedType strategy negated
                      message [comparisonResult]]
          | none =>
              if negated then
                [buildProblem sv dn actualType expectedType strategy negated
                   message []]
              else []
      | _, _ => []
  | _, _ => []

/-- `ensureNodeIsAssignable`. -/
def ensureNodeIsAssignable (sv : TypirServices) (sourceNode : Option NodeOrType)
    (expected : Option NodeOrType) (message : MsgProvider) :
    List ValidationProblem :=
  ensureNodeRelatedWithType sv sourceNode expected TypeCheckStrategy.ASSIGNABLE_TYPE
    false message

/-- `ensureNodeIsEquals`. -/
def ensureNodeIsEquals (sv : TypirServices) (sourceNode : Option NodeOrType)
    (expected : Option NodeOrType) (message : MsgProvider) :
    List ValidationProblem :=
  ensureNodeRelatedWithType sv sourceNode expected TypeCheckStrategy.EQUAL_TYPE
    false message

/-- `ensureNodeHasNotType`. -/
def ensureNodeHasNotType (sv : TypirServices) (sourceNode : Option NodeOrType)
    (notExpected : Option NodeOrType) (message : MsgProvider) :
    List ValidationProblem :=
  ensureNodeRelatedWithType sv sourceNode notExpected TypeCheckStrategy.EQUAL_TYPE
    true message

end DefaultValidationConstraints

/-- A `ValidationRule`: maps a domain element (and the service facade) to
its diagnostics. -/
abbrev ValidationRule := NodeOrType → TypirServices → List ValidationProblem

/-- The `DefaultValidationCollector`: the facade and the ordered list of
registered rules. -/
structure DefaultValidationCollector where
  typir : TypirServices
  validationRules : List ValidationRule

namespace DefaultValidationCollector

/-- `validate`: run every registered rule in registration order, pushing
each rule's problems onto the accumulated list. -/
def validate (c : DefaultValidationCollector) (domainElement : NodeOrType) :
    List ValidationProblem :=
  c.validationRules.foldl (fun problems rule => problems ++ rule domainElement c.typir) []

/-- `addValidationRules`: append the given rules to the registry. -/
def addValidationRules (c : DefaultValidationCollector)
    (rules : List ValidationRule) : DefaultValidationCollector :=
  { c with validationRules := c.validationRules ++ rules }

end DefaultValidationCollector

/-- Passive listeners: callbacks that do not mutate the listener list. -/
def effNone : Eff := fun _ current => current

/-- A concrete service facade with an empty graph, no inference rules, and
a mismatch-free comparison strategy. -/
def svEmpty : TypirServices :=
  { graph := [],
    inferType := fun _ => none,
    printDomainElement := fun d _ => toString d,
    printType := fun t => t.identifier,
    strategyLogic := fun _ _ _ => none }

/-- The notifications of one pass are exactly the snapshot in order,
independent of the callbacks' effects on the live listener list. -/
lemma notifyPass_snd (eff : Eff) (mk : ListenerId → Notif) :
    ∀ snapshot current : List ListenerId,
      (notifyPass eff mk snapshot current).2 = snapshot.map mk := by
  intro snapshot
  induction snapshot with
  | nil => intro current; rfl
  | cons l rest ih => intro current; simp [notifyPass, ih]

/-- `addListener` always appends the listener, whatever it delivers. -/
lemma addListener_fst (r : TypeReference) (l : ListenerId) (b : Bool) :
    (TypeReference.addListener r l b).1 = { r with listeners := r.listeners ++ [l] } := by
  cases b with
  | false => rfl
  | true =>
      simp only [TypeReference.addListener]
      cases r.resolvedType <;> rfl

/-- Registering listeners one by one (without state notification) appends
them in registration order and changes nothing else. -/
lemma foldl_addListener (L : List ListenerId) :
    ∀ r : TypeReference,
      L.foldl (fun acc l => (TypeReference.addListener acc l false).1) r
        = { r with listeners := r.listeners ++ L } := by
  induction L with
  | nil => intro r; simp
  | cons l rest ih =>
      intro r
      rw [List.foldl_cons, addListener_fst, ih]
      simp

/-- `resolve` preserves the subscription invariant. -/
lemma resolve_subscription (eff : Eff) (sv : TypirServices) (r : TypeReference)
    (h : SubscriptionInvariant r) :
    SubscriptionInvariant (TypeReference.resolve eff sv r).1 := by
  unfold TypeReference.resolve
  cases hres : r.resolvedType with
  | some t => simpa using h
  | none =>
      cases htr : tryToResolve sv r.selector with
      | some t => simp [SubscriptionInvariant]
      | none =>
          simp only []
          exact h

/-- `startResolving` establishes the subscription invariant from any state. -/
lemma startResolving_subscription (eff : Eff) (sv : TypirServices) (r : TypeReference) :
    SubscriptionInvariant (TypeReference.startResolving eff sv r).1 := by
  have hmid : SubscriptionInvariant
      { r with
        resolvedType := none,
        subscribedToGraph := true,
        subscribedToInference := true } := by
    simp [SubscriptionInvariant]
  exact resolve_subscription eff sv _ hmid

/-- A freshly constructed reference satisfies the subscription invariant. -/
lemma construct_subscription (eff : Eff) (sv : TypirServices) (sel : Selector) :
    SubscriptionInvariant (TypeReference.construct eff sv sel).1 :=
  startResolving_subscription eff sv _

/-- `removedType` preserves the subscription invariant. -/
lemma removedType_subscription (eff : Eff) (sv : TypirServices) (t : Ty)
    (r : TypeReference) (h : SubscriptionInvariant r) :
    SubscriptionInvariant (TypeReference.removedType eff sv t r).1 := by
  unfold TypeReference.removedType
  by_cases hr : r.resolvedType = some t
  · simp only [hr, if_pos rfl]
    exact startResolving_subscription eff sv _
  · simp only [if_neg hr]
    exact h

/-- Every live method call preserves the subscription invariant. -/
lemma applyOp_subscription (eff : Eff) (op : Op) (r : TypeReference)
    (h : SubscriptionInvariant r) :
    SubscriptionInvariant (applyOp eff op r).1 := by
  cases op with
  | addedType sv t key => exact resolve_subscription eff sv r h
  | removedType sv t key => exact removedType_subscription eff sv t r h
  | addedEdge => exact h
  | removedEdge => exact h
  | addedInferenceRule sv => exact resolve_subscription eff sv r h
  | removedInferenceRule => exact h
  | addListener l b =>
      simp only [applyOp, addListener_fst]
      exact h
  | removeListener l => exact h

/-- Method sequences preserve the subscription invariant. -/
lemma applyOps_subscription (eff : Eff) (ops : List Op) :
    ∀ r : TypeReference, SubscriptionInvariant r →
      SubscriptionInvariant (applyOps eff ops r) := by
  induction ops with
  | nil => intro r h; exact h
  | cons op rest ih =>
      intro r h
      exact ih _ (applyOp_subscription eff op r h)

/-- No event is delivered to a reference subscribed to neither collaborator. -/
lemma deliver_unsubscribed (eff : Eff) (e : Event) (r : TypeReference)
    (hg : r.subscribedToGraph = false) (hi : r.subscribedToInference = false) :
    deliver eff e r = (r, []) := by
  cases e <;> simp [deliver, hg, hi, TypeReference.addedEdge, TypeReference.removedEdge,
    TypeReference.removedInferenceRule]

/-- No event sequence reaches a fully unsubscribed reference. -/
lemma deliverAll_unsubscribed (eff : Eff) (events : List Event) :
    ∀ r : TypeReference, r.subscribedToGraph = false →
      r.subscribedToInference = false → deliverAll eff events r = (r, []) := by
  induction events with
  | nil => intro r _ _; rfl
  | cons e rest ih =>
      intro r hg hi
      simp [deliverAll, deliver_unsubscribed eff e r hg hi, ih r hg hi]

/-- C1 (code_bug evidence): the authoritative `resolveTypeSelector`,
evaluated at a selector that is an unresolved `TypeReference` (such as one
freshly constructed against an empty graph), returns the absent result
`undefined` instead of a `Type` or an error — contradicting the function's
own declared return type `Type`. -/
theorem resolveTypeSelector_absent_for_unresolved_reference :
    (TypeReference.construct effNone svEmpty (Selector.str "missing")).1.resolvedType
      = none ∧
    resolveTypeSelector svEmpty
      (Selector.ref (TypeReference.construct effNone svEmpty
        (Selector.str "missing")).1.resolvedType)
      = Except.ok none ∧
    resolveTypeSelector svEmpty (Selector.ref none) = Except.ok none := by
  refine ⟨rfl, rfl, rfl⟩

/-- C4: for every live (not yet deconstructed) `TypeReference` — i.e. after
construction followed by any sequence of method invocations — the reference
is subscribed to both the Type Graph and the Inference Collector exactly
while the resolved-type slot is absent, and subscribed to neither while the
slot holds a Type. -/
theorem typeReference_subscription_invariant (eff : Eff) (sv : TypirServices)
    (sel : Selector) (ops : List Op) :
    SubscriptionInvariant (applyOps eff ops (TypeReference.construct eff sv sel).1) :=
  applyOps_subscription eff ops _ (construct_subscription eff sv sel)

/-- C8: `deconstruct()` unsubscribes from both collaborators unconditionally
(idempotently, also when already Resolved), clears the listener list, and
leaves the reference permanently non-reactive: no subsequent Type Graph or
Inference Collector event — in particular no addition of a Type matching
its selector — changes its state or notifies any listener. -/
theorem deconstruct_permanently_nonreactive (eff : Eff) (r : TypeReference)
    (events : List Event) :
    (TypeReference.deconstruct r).subscribedToGraph = false ∧
    (TypeReference.deconstruct r).subscribedToInference = false ∧
    (TypeReference.deconstruct r).listeners = [] ∧
    TypeReference.deconstruct (TypeReference.deconstruct r)
      = TypeReference.deconstruct r ∧
    deliverAll eff events (TypeReference.deconstruct r)
      = (TypeReference.deconstruct r, []) := by
  refine ⟨rfl, rfl, rfl, rfl, ?_⟩
  exact deliverAll_unsubscribed eff events _ rfl rfl

/-- C10: `deconstruct()` does not clear the resolved-type slot: `getType()`
afterwards (also after any further event sequence) still returns the last
resolved Type; only the subscriptions and the listener list change. -/
theorem deconstruct_preserves_resolved_slot (eff : Eff) (r : TypeReference)
    (events : List Event) :
    TypeReference.getType (TypeReference.deconstruct r) = TypeReference.getType r ∧
    (TypeReference.deconstruct r).resolvedType = r.resolvedType ∧
    (TypeReference.deconstruct r).selector = r.selector ∧
    TypeReference.getType
      (deliverAll eff events (TypeReference.deconstruct r)).1
      = TypeReference.getType r := by
  refine ⟨rfl, rfl, rfl, ?_⟩
  rw [deliverAll_unsubscribed eff events _ rfl rfl]
  rfl

/-- Concrete Type handles for evaluation. -/
def tyA : Ty := { uid := 1, identifier := "A" }

/-- A second, distinct concrete Type handle. -/
def tyB : Ty := { uid := 2, identifier := "B" }

/-- A concrete reference already resolved to `tyA` (hence unsubscribed). -/
def rRes : TypeReference :=
  { selector := Selector.str "A",
    resolvedType := some tyA,
    listeners := [3],
    subscribedToGraph := false,
    subscribedToInference := false }

/-- `startResolving` on a selector the services cannot resolve: the
reference ends Unresolved, subscribed to both collaborators, silently. -/
lemma startResolving_fail (eff : Eff) (sv : TypirServices) (r : TypeReference)
    (hfail : tryToResolve sv r.selector = none) :
    TypeReference.startResolving eff sv r
      = ({ r with
           resolvedType := none,
           subscribedToGraph := true,
           subscribedToInference := true }, []) := by
  simp [TypeReference.startResolving, TypeReference.resolve, hfail]

/-- A delivered `addedType` event on an Unresolved, graph-subscribed
reference whose selector now resolves: the reference stores the type and
notifies the snapshot of its listeners in order. -/
lemma deliver_addedType_resolves (eff : Eff) (sv2 : TypirServices) (u : Ty)
    (key : String) (r : TypeReference) (hnone : r.resolvedType = none)
    (hsub : r.subscribedToGraph = true)
    (htr : tryToResolve sv2 r.selector = some u) :
    (deliver eff (Event.addedType sv2 u key) r).1.resolvedType = some u ∧
    (deliver eff (Event.addedType sv2 u key) r).2
      = r.listeners.map (fun l => Notif.onResolved l u (some u)) := by
  simp [deliver, hsub, TypeReference.addedType, TypeReference.resolve, hnone, htr,
    notifyPass_snd]

/-- Whatever re-resolution does after an invalidation, it only ever emits
`onResolved` callbacks observing the newly stored type. -/
lemma startResolving_snd_onResolved (eff : Eff) (sv : TypirServices)
    (r : TypeReference) :
    ∀ n ∈ (TypeReference.startResolving eff sv r).2,
      ∃ l u, n = Notif.onResolved l u (some u) := by
  unfold TypeReference.startResolving TypeReference.resolve
  cases htr : tryToResolve sv r.selector with
  | none => simp
  | some u =>
      simp only [htr, notifyPass_snd]
      intro n hn
      rcases List.mem_map.mp hn with ⟨l, _, rfl⟩
      exact ⟨l, u, rfl⟩

/-- C2: a reference constructed (with any listeners then registered) before
its target Type exists stays Unresolved and emits nothing; when a Type
under its identifier is added to the graph, the delivered `addedType`
resolves it during that add and fires each registered listener's
`onResolved` exactly once, in registration order, over the pre-pass
snapshot — for every possible reentrant mutation `eff` of the listener
list by the callbacks. -/
theorem typeReference_resolves_on_added_type (eff : Eff) (sv : TypirServices)
    (ident : String) (L : List ListenerId) (t : Ty)
    (hmiss : lookupType sv.graph ident = none) :
    (TypeReference.construct eff sv (Selector.str ident)).2 = [] ∧
    (TypeReference.construct eff sv (Selector.str ident)).1.resolvedType = none ∧
    (deliver eff
        (Event.addedType { sv with graph := (ident, t) :: sv.graph } t ident)
        (L.foldl (fun acc l => (TypeReference.addListener acc l false).1)
          (TypeReference.construct eff sv (Selector.str ident)).1)).1.resolvedType
      = some t ∧
    (deliver eff
        (Event.addedType { sv with graph := (ident, t) :: sv.graph } t ident)
        (L.foldl (fun acc l => (TypeReference.addListener acc l false).1)
          (TypeReference.construct eff sv (Selector.str ident)).1)).2
      = L.map (fun l => Notif.onResolved l t (some t)) := by
  have hcon : TypeReference.construct eff sv (Selector.str ident)
      = ({ selector := Selector.str ident,
           resolvedType := none,
           listeners := [],
           subscribedToGraph := true,
           subscribedToInference := true }, []) := by
    have := startResolving_fail eff sv
      { selector := Selector.str ident,
        resolvedType := none,
        listeners := [],
        subscribedToGraph := false,
        subscribedToInference := false }
      (by simpa [tryToResolve] using hmiss)
    simpa [TypeReference.construct] using this
  have hfold := foldl_addListener L (TypeReference.construct eff sv (Selector.str ident)).1
  have hdel := deliver_addedType_resolves eff
    { sv with graph := (ident, t) :: sv.graph } t ident
    (L.foldl (fun acc l => (TypeReference.addListener acc l false).1)
      (TypeReference.construct eff sv (Selector.str ident)).1)
    (by rw [hfold, hcon]) (by rw [hfold, hcon])
    (by rw [hfold]; simp [hcon, tryToResolve, lookupType])
  refine ⟨by rw [hcon], by rw [hcon], hdel.1, ?_⟩
  rw [hdel.2, hfold, hcon]
  simp

/-- C2 witness: two listeners on a reference to the not-yet-existing "A";
adding `tyA` under "A" resolves the reference and fires both listeners in
order. -/
theorem typeReference_resolves_on_added_type_witness :
    (deliver effNone
        (Event.addedType { svEmpty with graph := [("A", tyA)] } tyA "A")
        ([10, 11].foldl (fun acc l => (TypeReference.addListener acc l false).1)
          (TypeReference.construct effNone svEmpty (Selector.str "A")).1)).1.resolvedType
      = some tyA ∧
    (deliver effNone
        (Event.addedType { svEmpty with graph := [("A", tyA)] } tyA "A")
        ([10, 11].foldl (fun acc l => (TypeReference.addListener acc l false).1)
          (TypeReference.construct effNone svEmpty (Selector.str "A")).1)).2
      = [Notif.onResolved 10 tyA (some tyA), Notif.onResolved 11 tyA (some tyA)] := by
  have h := typeReference_resolves_on_added_type effNone svEmpty "A" [10, 11] tyA rfl
  exact ⟨h.2.2.1, h.2.2.2⟩

/-- `removedType` on the currently resolved Type: the invalidation pass
notifies the snapshot (each callback still observing the previous type),
then the reference restarts resolution from scratch. -/
lemma removedType_eq (eff : Eff) (sv : TypirServices) (t : Ty)
    (r : TypeReference) (hres : r.resolvedType = some t) :
    TypeReference.removedType eff sv t r
      = ((TypeReference.startResolving eff sv
            { r with listeners :=
                (notifyPass eff
                  (fun l => Notif.onInvalidated l r.resolvedType r.resolvedType)
                  r.listeners r.listeners).1 }).1,
         r.listeners.map (fun l => Notif.onInvalidated l (some t) (some t))
           ++ (TypeReference.startResolving eff sv
                { r with listeners :=
                    (notifyPass eff
                      (fun l => Notif.onInvalidated l r.resolvedType r.resolvedType)
                      r.listeners r.listeners).1 }).2) := by
  rw [TypeReference.removedType, if_pos hres]
  simp only [notifyPass_snd, hres]

/-- C3: removing the Type identical to a Resolved reference's resolved Type
fires every listener's `onInvalidated` exactly once with the previous Type,
leaves the reference Unresolved, re-subscribed to both collaborators, with
its selector intact, and ready to re-resolve: a later `addedType` whose
services resolve the selector makes it Resolved again with `onResolved`
notifications. Removing any other Type, edge add/remove events, and
inference-rule removals change nothing and notify nobody. -/
theorem typeReference_invalidation_not_terminal (eff : Eff) (sv : TypirServices)
    (t : Ty) (r : TypeReference)
    (hres : r.resolvedType = some t)
    (hfail : tryToResolve sv r.selector = none) :
    (TypeReference.removedType eff sv t r).2
      = r.listeners.map (fun l => Notif.onInvalidated l (some t) (some t)) ∧
    (TypeReference.removedType eff sv t r).1.resolvedType = none ∧
    (TypeReference.removedType eff sv t r).1.subscribedToGraph = true ∧
    (TypeReference.removedType eff sv t r).1.subscribedToInference = true ∧
    (TypeReference.removedType eff sv t r).1.selector = r.selector ∧
    (∀ (sv2 : TypirServices) (u : Ty) (key : String),
      tryToResolve sv2 r.selector = some u →
      (deliver eff (Event.addedType sv2 u key)
          (TypeReference.removedType eff sv t r).1).1.resolvedType = some u ∧
      (deliver eff (Event.addedType sv2 u key)
          (TypeReference.removedType eff sv t r).1).2
        = (TypeReference.removedType eff sv t r).1.listeners.map
            (fun l => Notif.onResolved l u (some u))) ∧
    (∀ u : Ty, r.resolvedType ≠ some u →
      TypeReference.removedType eff sv u r = (r, [])) ∧
    TypeReference.addedEdge r = (r, []) ∧
    TypeReference.removedEdge r = (r, []) ∧
    TypeReference.removedInferenceRule r = (r, []) := by
  have hmid := startResolving_fail eff sv
    { r with listeners :=
        (notifyPass eff
          (fun l => Notif.onInvalidated l r.resolvedType r.resolvedType)
          r.listeners r.listeners).1 }
    (by simpa using hfail)
  have hstep := removedType_eq eff sv t r hres
  rw [hmid] at hstep
  refine ⟨by rw [hstep]; simp, by rw [hstep], by rw [hstep], by rw [hstep],
    by rw [hstep], ?_, ?_, rfl, rfl, rfl⟩
  · intro sv2 u key htr
    exact deliver_addedType_resolves eff sv2 u key _
      (by rw [hstep]) (by rw [hstep]) (by rw [hstep]; simpa using htr)
  · intro u hu
    rw [TypeReference.removedType, if_neg hu]

/-- C3 witness: a reference resolved to `tyA` with one listener, under
services that cannot re-resolve it; removing `tyA` invalidates it, and
re-adding a Type under its identifier re-resolves it. -/
theorem typeReference_invalidation_not_terminal_witness :
    (TypeReference.removedType effNone svEmpty tyA rRes).2
      = [Notif.onInvalidated 3 (some tyA) (some tyA)] ∧
    (TypeReference.removedType effNone svEmpty tyA rRes).1.resolvedType = none ∧
    (TypeReference.removedType effNone svEmpty tyA rRes).1.subscribedToGraph = true ∧
    (deliver effNone
        (Event.addedType { svEmpty with graph := [("A", tyB)] } tyB "A")
        (TypeReference.removedType effNone svEmpty tyA rRes).1).1.resolvedType
      = some tyB ∧
    TypeReference.removedType effNone svEmpty tyB rRes = (rRes, []) := by
  have h := typeReference_invalidation_not_terminal effNone svEmpty tyA rRes rfl rfl
  refine ⟨h.1, h.2.1, h.2.2.1, ?_, ?_⟩
  · exact (h.2.2.2.2.2.1 { svEmpty with graph := [("A", tyB)] } tyB "A" rfl).1
  · exact h.2.2.2.2.2.2.1 tyB (by decide)

/-- C9: during the `onInvalidated` pass triggered by `removedType`, the
resolved-type slot is unchanged — every callback of that pass that calls
`getType()` observes the previous (just-removed) Type — and only after the
whole pass does re-resolution restart, any further notifications being
`onResolved` callbacks observing the newly stored type. -/
theorem removedType_pass_observes_previous_type (eff : Eff) (sv : TypirServices)
    (t : Ty) (r : TypeReference) (hres : r.resolvedType = some t) :
    ∃ rest : List Notif,
      (TypeReference.removedType eff sv t r).2
        = r.listeners.map (fun l => Notif.onInvalidated l (some t) (some t)) ++ rest ∧
      ∀ n ∈ rest, ∃ l u, n = Notif.onResolved l u (some u) := by
  rw [removedType_eq eff sv t r hres]
  exact ⟨_, rfl, startResolving_snd_onResolved eff sv _⟩

/-- C9 witness: at the concrete resolved reference `rRes`, the invalidation
notifications carry `some tyA` both as the previous type and as the value
`getType()` shows during the pass. -/
theorem removedType_pass_observes_previous_type_witness :
    ∃ rest : List Notif,
      (TypeReference.removedType effNone svEmpty tyA rRes).2
        = [3].map (fun l => Notif.onInvalidated l (some tyA) (some tyA)) ++ rest ∧
      ∀ n ∈ rest, ∃ l u, n = Notif.onResolved l u (some u) :=
  removedType_pass_observes_previous_type effNone svEmpty tyA rRes rfl

/-- A message provider that overrides nothing. -/
def msgNone : MsgProvider := fun _ _ => {}

/-- Concrete services whose inference maps 0 to `tyA` and 1 to `tyB`, and
whose comparison strategies report a mismatch exactly for distinct types. -/
def svCheck : TypirServices :=
  { graph := [],
    inferType := fun d => if d = 0 then some tyA else if d = 1 then some tyB else none,
    printDomainElement := fun d _ => toString d,
    printType := fun t => t.identifier,
    strategyLogic := fun _ a e => if a.uid = e.uid then none else some { code := 7 } }

/-- C5: once both sides resolve to Types, `ensureNodeRelatedWithType`
follows exactly the four-outcome rule: not negated plus mismatch gives one
problem carrying the mismatch as its non-empty sub-problem list; not
negated without mismatch gives nothing; negated without mismatch gives one
problem with an empty sub-problem list; negated plus mismatch gives
nothing. In particular `ensureNodeIsAssignable` on a mismatching pair
yields one problem with non-empty sub-problems, and `ensureNodeHasNotType`
on a value whose type equals the forbidden one (no EQUAL mismatch) yields
one problem with empty sub-problems. -/
theorem ensureNodeRelatedWithType_four_outcomes (sv : TypirServices)
    (dn ex : NodeOrType) (a e : Ty) (strategy : TypeCheckStrategy)
    (msg : MsgProvider)
    (ha : DefaultValidationConstraints.asTypeOrInfer sv dn = some a)
    (he : DefaultValidationConstraints.asTypeOrInfer sv ex = some e) :
    (∀ m : Mismatch, sv.strategyLogic strategy a e = some m →
      DefaultValidationConstraints.ensureNodeRelatedWithType sv (some dn)
          (some ex) strategy false msg
        = [DefaultValidationConstraints.buildProblem sv dn a e strategy false msg [m]] ∧
      DefaultValidationConstraints.ensureNodeRelatedWithType sv (some dn)
          (some ex) strategy true msg = []) ∧
    (sv.strategyLogic strategy a e = none →
      DefaultValidationConstraints.ensureNodeRelatedWithType sv (some dn)
          (some ex) strategy false msg = [] ∧
      DefaultValidationConstraints.ensureNodeRelatedWithType sv (some dn)
          (some ex) strategy true msg
        = [DefaultValidationConstraints.buildProblem sv dn a e strategy true msg []]) ∧
    (∀ m : Mismatch, sv.strategyLogic TypeCheckStrategy.ASSIGNABLE_TYPE a e = some m →
      ∃ p : ValidationProblem,
        DefaultValidationConstraints.ensureNodeIsAssignable sv (some dn) (some ex) msg
          = [p] ∧ p.subProblems ≠ []) ∧
    (sv.strategyLogic TypeCheckStrategy.EQUAL_TYPE a e = none →
      ∃ p : ValidationProblem,
        DefaultValidationConstraints.ensureNodeHasNotType sv (some dn) (some ex) msg
          = [p] ∧ p.subProblems = []) := by
  refine ⟨?_, ?_, ?_, ?_⟩
  · intro m hm
    constructor <;>
      simp [DefaultValidationConstraints.ensureNodeRelatedWithType, ha, he, hm]
  · intro hm
    constructor <;>
      simp [DefaultValidationConstraints.ensureNodeRelatedWithType, ha, he, hm]
  · intro m hm
    refine ⟨DefaultValidationConstraints.buildProblem sv dn a e
      TypeCheckStrategy.ASSIGNABLE_TYPE false msg [m], ?_, by
        simp [DefaultValidationConstraints.buildProblem]⟩
    simp [DefaultValidationConstraints.ensureNodeIsAssignable,
      DefaultValidationConstraints.ensureNodeRelatedWithType, ha, he, hm]
  · intro hm
    refine ⟨DefaultValidationConstraints.buildProblem sv dn a e
      TypeCheckStrategy.EQUAL_TYPE true msg [], ?_, by
        simp [DefaultValidationConstraints.buildProblem]⟩
    simp [DefaultValidationConstraints.ensureNodeHasNotType,
      DefaultValidationConstraints.ensureNodeRelatedWithType, ha, he, hm]

/-- C5 witness: value 0 infers to `tyA`; against expected `tyB` the
assignability check emits one problem carrying the mismatch, the negated
check nothing; against forbidden `tyA` the has-not-type check emits one
problem with empty sub-problems. -/
theorem ensureNodeRelatedWithType_four_outcomes_witness :
    DefaultValidationConstraints.ensureNodeRelatedWithType svCheck
        (some (NodeOrType.node 0)) (some (NodeOrType.type tyB))
        TypeCheckStrategy.ASSIGNABLE_TYPE false msgNone
      = [DefaultValidationConstraints.buildProblem svCheck (NodeOrType.node 0)
           tyA tyB TypeCheckStrategy.ASSIGNABLE_TYPE false msgNone [{ code := 7 }]] ∧
    DefaultValidationConstraints.ensureNodeRelatedWithType svCheck
        (some (NodeOrType.node 0)) (some (NodeOrType.type tyB))
        TypeCheckStrategy.ASSIGNABLE_TYPE true msgNone = [] ∧
    DefaultValidationConstraints.ensureNodeRelatedWithType svCheck
        (some (NodeOrType.node 0)) (some (NodeOrType.type tyA))
        TypeCheckStrategy.EQUAL_TYPE false msgNone = [] ∧
    DefaultValidationConstraints.ensureNodeHasNotType svCheck
        (some (NodeOrType.node 0)) (some (NodeOrType.type tyA)) msgNone
      = [DefaultValidationConstraints.buildProblem svCheck (NodeOrType.node 0)
           tyA tyA TypeCheckStrategy.EQUAL_TYPE true msgNone []] := by
  have h1 := ensureNodeRelatedWithType_four_outcomes svCheck (NodeOrType.node 0)
    (NodeOrType.type tyB) tyA tyB TypeCheckStrategy.ASSIGNABLE_TYPE msgNone rfl rfl
  have h2 := ensureNodeRelatedWithType_four_outcomes svCheck (NodeOrType.node 0)
    (NodeOrType.type tyA) tyA tyA TypeCheckStrategy.EQUAL_TYPE msgNone rfl rfl
  exact ⟨(h1.1 { code := 7 } rfl).1, (h1.1 { code := 7 } rfl).2,
    (h2.2.1 rfl).1, (h2.2.1 rfl).2⟩

/-- Conjunct shared by the C6 conjunction: any unresolved or undefined
side silences `ensureNodeRelatedWithType`, for every strategy and flag. -/
lemma ensureNodeRelatedWithType_skip (sv : TypirServices)
    (domainNode expected : Option NodeOrType) (strategy : TypeCheckStrategy)
    (negated : Bool) (msg : MsgProvider)
    (h : domainNode.bind (DefaultValidationConstraints.asTypeOrInfer sv) = none ∨
         expected.bind (DefaultValidationConstraints.asTypeOrInfer sv) = none) :
    DefaultValidationConstraints.ensureNodeRelatedWithType sv domainNode expected
      strategy negated msg = [] := by
  cases domainNode with
  | none => rfl
  | some dn =>
      cases expected with
      | none => rfl
      | some ex =>
          rcases h with h | h
          · simp only [Option.some_bind] at h
            simp [DefaultValidationConstraints.ensureNodeRelatedWithType, h]
          · simp only [Option.some_bind] at h
            cases hdn : DefaultValidationConstraints.asTypeOrInfer sv dn <;>
              simp [DefaultValidationConstraints.ensureNodeRelatedWithType, hdn, h]

/-- C6: whenever either side of a relation check is undefined or fails to
resolve to a Type (inference miss), the primitive and all three wrappers
return the empty problem list, for every strategy and negation flag; being
total Lean functions, they throw nothing. -/
theorem relation_checks_skip_unresolved_sides (sv : TypirServices)
    (domainNode expected : Option NodeOrType) (strategy : TypeCheckStrategy)
    (negated : Bool) (msg : MsgProvider)
    (h : domainNode.bind (DefaultValidationConstraints.asTypeOrInfer sv) = none ∨
         expected.bind (DefaultValidationConstraints.asTypeOrInfer sv) = none) :
    DefaultValidationConstraints.ensureNodeRelatedWithType sv domainNode expected
      strategy negated msg = [] ∧
    DefaultValidationConstraints.ensureNodeIsAssignable sv domainNode expected msg = [] ∧
    DefaultValidationConstraints.ensureNodeIsEquals sv domainNode expected msg = [] ∧
    DefaultValidationConstraints.ensureNodeHasNotType sv domainNode expected msg = [] :=
  ⟨ensureNodeRelatedWithType_skip sv domainNode expected strategy negated msg h,
   ensureNodeRelatedWithType_skip sv domainNode expected _ _ msg h,
   ensureNodeRelatedWithType_skip sv domainNode expected _ _ msg h,
   ensureNodeRelatedWithType_skip sv domainNode expected _ _ msg h⟩

/-- C6 witness: an undefined domain side, and a domain value (2) the
inference collector cannot type, both silence every check. -/
theorem relation_checks_skip_unresolved_sides_witness :
    DefaultValidationConstraints.ensureNodeRelatedWithType svCheck none
      (some (NodeOrType.type tyA)) TypeCheckStrategy.ASSIGNABLE_TYPE false msgNone = [] ∧
    DefaultValidationConstraints.ensureNodeIsAssignable svCheck
      (some (NodeOrType.node 2)) (some (NodeOrType.type tyA)) msgNone = [] ∧
    DefaultValidationConstraints.ensureNodeHasNotType svCheck
      (some (NodeOrType.node 2)) (some (NodeOrType.type tyA)) msgNone = [] := by
  have h1 := relation_checks_skip_unresolved_sides svCheck none
    (some (NodeOrType.type tyA)) TypeCheckStrategy.ASSIGNABLE_TYPE false msgNone
    (Or.inl rfl)
  have h2 := relation_checks_skip_unresolved_sides svCheck
    (some (NodeOrType.node 2)) (some (NodeOrType.type tyA))
    TypeCheckStrategy.ASSIGNABLE_TYPE false msgNone (Or.inl rfl)
  exact ⟨h1.1, h2.2.1, h2.2.2.2⟩

/-- Accumulating rule outputs with a left fold is plain concatenation. -/
lemma foldl_append_flatten {α β : Type} (f : α → List β) (rules : List α) :
    ∀ acc : List β,
      rules.foldl (fun problems r => problems ++ f r) acc
        = acc ++ (rules.map f).flatten := by
  induction rules with
  | nil => intro acc; simp
  | cons r rest ih => intro acc; simp [List.foldl, ih]

/-- C7: `validate` returns exactly the concatenation, in registration
order, of each registered rule's own output for the domain element — each
rule receiving only the element and the services, never a prior rule's
result; zero registered rules give the empty list, and rules appended by
`addValidationRules` contribute after the existing ones. -/
theorem validate_concatenates_rule_outputs (sv : TypirServices)
    (rules extra : List ValidationRule) (d : NodeOrType) :
    DefaultValidationCollector.validate
        { typir := sv, validationRules := rules } d
      = (rules.map (fun rule => rule d sv)).flatten ∧
    DefaultValidationCollector.validate
        { typir := sv, validationRules := [] } d = [] ∧
    DefaultValidationCollector.validate
        (DefaultValidationCollector.addValidationRules
          { typir := sv, validationRules := rules } extra) d
      = DefaultValidationCollector.validate
          { typir := sv, validationRules := rules } d
        ++ (extra.map (fun rule => rule d sv)).flatten := by
  have hmain : ∀ rs : List ValidationRule,
      DefaultValidationCollector.validate
          { typir := sv, validationRules := rs } d
        = (rs.map (fun rule => rule d sv)).flatten := by
    intro rs
    simpa [DefaultValidationCollector.validate]
      using foldl_append_flatten (fun rule => rule d sv) rs []
  refine ⟨hmain rules, hmain [], ?_⟩
  rw [DefaultValidationCollector.addValidationRules]
  simp [hmain]
